import Mathlib

/-!
Verification development for the WeatherAssistant repository.

The repository resolves a free-text place query against weather.com's
location-search endpoint (`fetchLocations`) and scrapes the `/weather/today`
page with cheerio CSS selectors (`fetchWeather`).  This file gives a shallow
embedding of the relevant JavaScript/cheerio semantics:

* JS `String.prototype.trim`, `String.prototype.replace` (string pattern:
  first occurrence only) and `parseInt(s, 10)` (which yields `NaN`, not an
  exception, on unparseable input) — `JSNumber` models a JS number that is
  either an integer or `NaN`, and `Option JSNumber` models `number | null`.
* a DOM tree (`DomNode` / `DomForest`) together with the CSS-selector
  fragment actually used by the sources: attribute tests `[k="v"]`,
  `[k^="v"]`, `[k*="v"]`, tag names, `:nth-child(n)`, and the descendant
  and child (`>`) combinators, with document-order query results.
* the scraping helpers `getText`, `getPercentage`, `getTemp`,
  `getSegmentData` and the assembled `fetchWeather` / `fetchLocations`
  of `src/agent.ts`, plus the outlook loop of `src/weather.ts` (which
  differs from `src/agent.ts` by its `slice(1, 3)` horizon).
-/

/-- The JavaScript whitespace characters recognised by `trim` / `parseInt`:
tab, LF, VT, FF, CR, space, NBSP, LS, PS, BOM. -/
def isJsWs (c : Char) : Bool :=
  c = ' ' || c = '\t' || c = '\n' || c = '\r' ||
  c = Char.ofNat 11 || c = Char.ofNat 12 || c = Char.ofNat 160 ||
  c = Char.ofNat 8232 || c = Char.ofNat 8233 || c = Char.ofNat 65279

/-- JS `String.prototype.trim`: drop leading and trailing whitespace. -/
def jsTrim (s : String) : String :=
  ⟨((s.data.dropWhile isJsWs).reverse.dropWhile isJsWs).reverse⟩

def isAsciiDigit (c : Char) : Bool :=
  '0' ≤ c && c ≤ '9'

def digitVal (c : Char) : Nat :=
  c.toNat - '0'.toNat

def digitsToNat (ds : List Char) : Nat :=
  ds.foldl (fun acc c => acc * 10 + digitVal c) 0

/-- A JavaScript number as produced by `parseInt`: an integer or `NaN`.
(`parseInt` with radix 10 can only produce integers or `NaN`.) -/
inductive JSNumber where
  | int (i : Int)
  | nan
deriving DecidableEq, Repr

/-- JS `parseInt(s, 10)` on a character list: skip leading whitespace, read
an optional sign, then the longest prefix of decimal digits; if there is no
digit, the result is `NaN` (never an exception). -/
def jsParseIntChars (cs : List Char) : JSNumber :=
  let rest := cs.dropWhile isJsWs
  match rest with
  | '-' :: r =>
      let ds := r.takeWhile isAsciiDigit
      if ds.isEmpty then .nan else .int (-(digitsToNat ds : Int))
  | '+' :: r =>
      let ds := r.takeWhile isAsciiDigit
      if ds.isEmpty then .nan else .int (digitsToNat ds : Int)
  | r =>
      let ds := r.takeWhile isAsciiDigit
      if ds.isEmpty then .nan else .int (digitsToNat ds : Int)

/-- JS `parseInt(s, 10)`. -/
def jsParseInt (s : String) : JSNumber :=
  jsParseIntChars s.data

def jsReplaceFirstChars (pat rep : List Char) : List Char → List Char
  | [] => []
  | c :: cs =>
      if pat.isPrefixOf (c :: cs) then rep ++ (c :: cs).drop pat.length
      else c :: jsReplaceFirstChars pat rep cs

/-- JS `String.prototype.replace` with a *string* pattern: replaces only the
first occurrence (or inserts `rep` at the front when `pat` is empty, matching
JS); the string is unchanged when `pat` does not occur. -/
def jsReplaceFirst (s pat rep : String) : String :=
  ⟨jsReplaceFirstChars pat.data rep.data s.data⟩

/-! ## DOM model

`DomNode` / `DomForest` model the document tree cheerio builds from the
fetched markup: elements carry a tag, an attribute list and children; text
nodes carry a string.  A node inside a document is addressed by its `NodePath`,
the list of 0-based child positions from the root; paths give node identity
(the root itself is the artificial container produced by `cheerio.load` and
is not returned by queries). -/

mutual
inductive DomNode where
  | elem (tag : String) (attrs : List (String × String)) (children : DomForest)
  | textNode (s : String)
inductive DomForest where
  | nil
  | cons (hd : DomNode) (tl : DomForest)
end

def DomForest.ofList : List DomNode → DomForest
  | [] => .nil
  | c :: cs => .cons c (DomForest.ofList cs)

/-- Convenience constructor for an element node. -/
def el (tag : String) (attrs : List (String × String)) (kids : List DomNode) : DomNode :=
  .elem tag attrs (DomForest.ofList kids)

/-- Convenience constructor for a text node. -/
def txt (s : String) : DomNode :=
  .textNode s

mutual
/-- cheerio `.text()` of a single node: the concatenation of all descendant
text, in document order. -/
def fullText : DomNode → String
  | .textNode s => s
  | .elem _ _ cs => fullTextF cs
def fullTextF : DomForest → String
  | .nil => ""
  | .cons c cs => fullText c ++ fullTextF cs
end

mutual
/-- cheerio `.clone()`: a deep structural copy of a node, detached from the
document it came from. -/
def cloneNode : DomNode → DomNode
  | .textNode s => .textNode s
  | .elem t a cs => .elem t a (cloneForest cs)
def cloneForest : DomForest → DomForest
  | .nil => .nil
  | .cons c cs => .cons (cloneNode c) (cloneForest cs)
end

def isTextNode : DomNode → Bool
  | .textNode _ => true
  | .elem _ _ _ => false

def DomForest.filterTexts : DomForest → DomForest
  | .nil => .nil
  | .cons c cs =>
      if isTextNode c then .cons c (DomForest.filterTexts cs)
      else DomForest.filterTexts cs

/-- The effect of `.children().remove()` applied to a (cloned, detached)
node: every child *element* is detached, so only the node's direct text
children remain. -/
def removeChildElements : DomNode → DomNode
  | .textNode s => .textNode s
  | .elem t a cs => .elem t a cs.filterTexts

/-- A path from the document root to a node: 0-based child positions. -/
abbrev NodePath := List Nat

def DomForest.get? : DomForest → Nat → Option DomNode
  | .nil, _ => none
  | .cons c _, 0 => some c
  | .cons _ cs, n + 1 => DomForest.get? cs n

/-- The node a path points to, if any. -/
def getNode : NodePath → DomNode → Option DomNode
  | [], n => some n
  | i :: p, .elem _ _ cs =>
      match cs.get? i with
      | some c => getNode p c
      | none => none
  | _ :: _, .textNode _ => none

/-- 1-based index of the child at position `i` among the *element* children
of a forest (CSS `:nth-child` counts element siblings only). -/
def childElemIndex : DomForest → Nat → Nat → Nat
  | .nil, _, acc => acc
  | .cons c _, 0, acc => if isTextNode c then 0 else acc
  | .cons c cs, i + 1, acc =>
      childElemIndex cs i (if isTextNode c then acc else acc + 1)

/-- The 1-based element-child index of the node a path points to (the root
counts as index 1; a dangling path or a text node yields 0). -/
def elemIndexAt : NodePath → DomNode → Nat
  | [], .elem _ _ _ => 1
  | [], .textNode _ => 0
  | [i], .elem _ _ cs => childElemIndex cs i 1
  | i :: p, .elem _ _ cs =>
      match cs.get? i with
      | some c => elemIndexAt p c
      | none => 0
  | _ :: _, .textNode _ => 0

mutual
/-- Document-order (pre-order) paths of all element descendants of a node,
the node itself excluded. -/
def elemPaths : DomNode → List NodePath
  | .textNode _ => []
  | .elem _ _ cs => elemPathsF cs 0
def elemPathsF : DomForest → Nat → List NodePath
  | .nil, _ => []
  | .cons (.textNode _) rest, j => elemPathsF rest (j + 1)
  | .cons (.elem _ _ cs) rest, j =>
      [j] :: ((elemPathsF cs 0).map (fun p => j :: p) ++ elemPathsF rest (j + 1))
end

/-! ## CSS selectors

Only the selector fragment the sources actually use is modelled: an optional
tag name, attribute tests `[k="v"]` / `[k^="v"]` / `[k*="v"]`, an optional
`:nth-child(n)`, and chains of such simple selectors joined by the
descendant and the child (`>`) combinators. -/

inductive AttrTest where
  | exact (k v : String)
  | startsWith (k v : String)
  | containsSub (k v : String)

structure SimpleSel where
  tag : Option String := none
  tests : List AttrTest := []
  nth : Option Nat := none

inductive Comb where
  | descendant
  | child

/-- A complex selector, stored target-first: `rest` lists the combinator and
simple selector for each successive ancestor constraint (nearest first), so
CSS `A B > C` is `⟨C, [(child, B), (descendant, A)]⟩`. -/
structure ComplexSel where
  target : SimpleSel
  rest : List (Comb × SimpleSel) := []

def getAttr (attrs : List (String × String)) (k : String) : Option String :=
  (attrs.find? (fun p => p.1 == k)).map (fun p => p.2)

def listHasInfix (pat : List Char) : List Char → Bool
  | [] => pat.isEmpty
  | c :: cs => pat.isPrefixOf (c :: cs) || listHasInfix pat cs

def attrTestHolds (attrs : List (String × String)) : AttrTest → Bool
  | .exact k v =>
      match getAttr attrs k with
      | some w => w == v
      | none => false
  | .startsWith k v =>
      match getAttr attrs k with
      | some w => v.data.isPrefixOf w.data
      | none => false
  | .containsSub k v =>
      match getAttr attrs k with
      | some w => listHasInfix v.data w.data
      | none => false

/-- Does the node at `p` (inside document `doc`) match a simple selector?
Text nodes and dangling paths never match. -/
def matchesSimpleAt (doc : DomNode) (p : NodePath) (s : SimpleSel) : Bool :=
  match getNode p doc with
  | some (.elem t attrs _) =>
      (match s.tag with
       | some tg => tg == t
       | none => true) &&
      s.tests.all (attrTestHolds attrs) &&
      (match s.nth with
       | some n => elemIndexAt p doc == n
       | none => true)
  | _ => false

/-- All prefixes of a path, shortest first, the full path included. -/
def prefixesAsc : NodePath → List NodePath
  | [] => [[]]
  | i :: p => [] :: (prefixesAsc p).map (fun q => i :: q)

/-- The proper ancestors of the node at `p`, nearest (parent) first; the last
entry is `[]`, the document root. -/
def ancestorsNearestFirst (p : NodePath) : List NodePath :=
  ((prefixesAsc p).dropLast).reverse

/-- Match the ancestor part of a complex selector against a nearest-first
list of ancestor paths. -/
def matchesAnc (doc : DomNode) : List (Comb × SimpleSel) → List NodePath → Bool
  | [], _ => true
  | _ :: _, [] => false
  | (c, s) :: r, a :: as =>
      match c with
      | .child => matchesSimpleAt doc a s && matchesAnc doc r as
      | .descendant =>
          (matchesSimpleAt doc a s && matchesAnc doc r as) ||
          matchesAnc doc ((.descendant, s) :: r) as

def matchesComplexAt (doc : DomNode) (sel : ComplexSel) (p : NodePath) : Bool :=
  matchesSimpleAt doc p sel.target && matchesAnc doc sel.rest (ancestorsNearestFirst p)

/-- cheerio `$(sel)`: the paths of all elements of the document matching the
selector, in document order. -/
def query (doc : DomNode) (sel : ComplexSel) : List NodePath :=
  (elemPaths doc).filter (matchesComplexAt doc sel)

/-- Is `q` a proper descendant of `c` (paths as identity)? -/
def properDescOf (c q : NodePath) : Bool :=
  (c != q) && c.isPrefixOf q

/-- cheerio `$(sel, ctx)` / `ctx.find(sel)`: elements matching `sel` that are
proper descendants of some element of the context set, in document order. -/
def queryCtx (doc : DomNode) (sel : ComplexSel) (ctx : List NodePath) : List NodePath :=
  (query doc sel).filter (fun q => ctx.any (fun c => properDescOf c q))

/-- `$(sel, ctx)` with cheerio's optional context argument. -/
def queryOpt (doc : DomNode) (sel : ComplexSel) : Option (List NodePath) → List NodePath
  | none => query doc sel
  | some ctx => queryCtx doc sel ctx

/-- cheerio `set.is(sel)`: does at least one element of the set match? -/
def setIs (doc : DomNode) (sel : ComplexSel) (ctx : List NodePath) : Bool :=
  ctx.any (matchesComplexAt doc sel)

/-- `.text()` of the node at a path (empty for a dangling path). -/
def fullTextAt (doc : DomNode) (p : NodePath) : String :=
  match getNode p doc with
  | some n => fullText n
  | none => ""

/-- cheerio `set.text()`: concatenation of the members' text. -/
def textOfSet (doc : DomNode) (set : List NodePath) : String :=
  String.join (set.map (fullTextAt doc))

/-- `set.first().text()`: text of the first element, `""` on an empty set. -/
def firstTextOfSet (doc : DomNode) : List NodePath → String
  | [] => ""
  | p :: _ => fullTextAt doc p

/-- `set.last().text()`: text of the last element, `""` on an empty set. -/
def lastTextOfSet (doc : DomNode) (set : List NodePath) : String :=
  match set.getLast? with
  | some p => fullTextAt doc p
  | none => ""

/-! ## Selector catalog

The `SELECTORS` record of `src/agent.ts` (and `src/weather.ts`), with each
CSS source string paired with its parsed form. -/

structure Sel where
  css : String
  q : ComplexSel

namespace SELECTORS

def followingDaysCss : String :=
  "[data-testid=DailyWeatherModule] [data-testid=WeatherTable] > li"

def dailyModuleSimple : SimpleSel :=
  { tests := [.exact ("data-testid") ("DailyWeatherModule")] }

def followingDays : Sel :=
  { css := followingDaysCss,
    q := { target := { tag := some ("li") },
           rest := [(.child, { tests := [.exact ("data-testid") ("WeatherTable")] }),
                    (.descendant, dailyModuleSimple)] } }

def todaySimple : SimpleSel :=
  { tests := [.startsWith ("id") ("WxuTodayWeatherCard-main-")] }

def today : Sel :=
  { css := "[id^=WxuTodayWeatherCard-main-]", q := { target := todaySimple } }

def todayDetails : Sel :=
  { css := "[data-testid=TodaysDetailsModule]",
    q := { target := { tests := [.exact ("data-testid") ("TodaysDetailsModule")] } } }

def currentTemp : Sel :=
  { css := "[class*=CurrentConditions--tempValue--]",
    q := { target := { tests := [.containsSub ("class") ("CurrentConditions--tempValue--")] } } }

def currentCondition : Sel :=
  { css := "[class*=CurrentConditions--phraseValue]",
    q := { target := { tests := [.containsSub ("class") ("CurrentConditions--phraseValue")] } } }

def chanceOfRain : Sel :=
  { css := "[class*=Column--precip--]",
    q := { target := { tests := [.containsSub ("class") ("Column--precip--")] } } }

def condition : Sel :=
  { css := "[class*=Column--iconPhrase--]",
    q := { target := { tests := [.containsSub ("class") ("Column--iconPhrase--")] } } }

def temperature : Sel :=
  { css := "[data-testid=TemperatureValue]",
    q := { target := { tests := [.exact ("data-testid") ("TemperatureValue")] } } }

def wind : Sel :=
  { css := "[data-testid=Wind]",
    q := { target := { tests := [.exact ("data-testid") ("Wind")] } } }

def percentage : Sel :=
  { css := "[data-testid=PercentageValue]",
    q := { target := { tests := [.exact ("data-testid") ("PercentageValue")] } } }

def uvIndex : Sel :=
  { css := "[data-testid=UVIndexValue]",
    q := { target := { tests := [.exact ("data-testid") ("UVIndexValue")] } } }

def periodOfDay : Sel :=
  { css := "[class*=Column--active--]",
    q := { target := { tests := [.containsSub ("class") ("Column--active--")] } } }

def timestampLabel : Sel :=
  { css := "[class*=CurrentConditions--timestamp--]",
    q := { target := { tests := [.containsSub ("class") ("CurrentConditions--timestamp--")] } } }

/-- The inline selector `'h3 span'` of the outlook loop. -/
def h3span : Sel :=
  { css := "h3 span",
    q := { target := { tag := some ("span") },
           rest := [(.descendant, { tag := some ("h3") })] } }

/-- The per-segment selector built in `getSegmentData`:
`` `${todayCard} ul > li:nth-child(${segment})` ``. -/
def segmentSel (segment : Nat) : Sel :=
  { css := "[id^=WxuTodayWeatherCard-main-] ul > li:nth-child(n)",
    q := { target := { tag := some ("li"), nth := some segment },
           rest := [(.child, { tag := some ("ul") }), (.descendant, todaySimple)] } }

end SELECTORS

/-! ## The scraping helpers and `fetchWeather` of `src/agent.ts`

Warnings printed with `console.error` are modelled as a returned list of
diagnostic strings; a JS `number | null` is an `Option JSNumber`; a JS
`string | null` is an `Option String`.  `getPercentage` also returns the
document as it stands after the call, to make the no-mutation contract a
stated fact rather than an implicit one: `.remove()` runs on the detached
output of `.clone()`, so the loaded document is returned as it was. -/

def warnMsg (sel : Sel) : String :=
  "Warning: Selector not found: " ++ sel.css

/-- `normalizeTemperature` of `src/agent.ts`:
`temp.length > 0 ? parseInt(temp.replace('°', ''), 10) : null`. -/
def normalizeTemperature (temp : String) : Option JSNumber :=
  if temp.length > 0 then some (jsParseInt (jsReplaceFirst temp ("°") (""))) else none

/-- `getText` of `src/agent.ts`: on a non-empty match set, the trimmed text,
with the empty string turned into `null` by `return text || null`; on an
empty match set, `null` plus one warning. -/
def getText (doc : DomNode) (sel : Sel) (ctx : Option (List NodePath)) :
    Option String × List String :=
  let element := queryOpt doc sel.q ctx
  if element.length > 0 then
    let text := jsTrim (textOfSet doc element)
    (if text = "" then none else some text, [])
  else
    (none, [warnMsg sel])

/-- `getPercentage` of `src/agent.ts`: on an empty match set, `null` plus one
warning; otherwise clone the matched nodes, remove every child element from
the clones, and read the trimmed remaining text.  The second component is
the document after the call. -/
def getPercentage (doc : DomNode) (sel : Sel) (ctx : Option (List NodePath)) :
    (Option String × List String) × DomNode :=
  let elSet := queryOpt doc sel.q ctx
  if elSet.length = 0 then ((none, [warnMsg sel]), doc)
  else
    let copies := elSet.map (fun p => cloneNode ((getNode p doc).getD (txt (""))))
    let stripped := copies.map removeChildElements
    ((some (jsTrim (String.join (stripped.map fullText))), []), doc)

/-- `getTemp` of `src/agent.ts`: `normalizeTemperature(text || "")`. -/
def getTemp (doc : DomNode) (sel : Sel) (ctx : Option (List NodePath)) :
    Option JSNumber × List String :=
  let r := getText doc sel ctx
  (normalizeTemperature (r.1.getD ("")), r.2)

structure SegData where
  temp : Option JSNumber
  condition : Option String
  rain : Option String
  active : Bool
deriving DecidableEq, Repr

/-- `getSegmentData` of `src/agent.ts`: query the segment-th `li` of the
today card, then extract temperature, condition, rain chance and the
`isActive` structural match within it. -/
def getSegmentData (doc : DomNode) (segment : Nat) : SegData × List String :=
  let segmentEl := query doc (SELECTORS.segmentSel segment).q
  let t := getTemp doc SELECTORS.temperature (some segmentEl)
  let c := getText doc SELECTORS.condition (some segmentEl)
  let r := (getPercentage doc SELECTORS.chanceOfRain (some segmentEl)).1
  ({ temp := t.1, condition := c.1, rain := r.1,
     active := setIs doc SELECTORS.periodOfDay.q segmentEl },
   t.2 ++ c.2 ++ r.2)

/-- The `currentDayStage` if/else chain of `src/agent.ts` (lines 382-391):
morning, then afternoon, then evening, then overnight; `null` if none. -/
def computeDayStage (morningActive afternoonActive eveningActive overnightActive : Bool) :
    Option String :=
  if morningActive then some ("Morning")
  else if afternoonActive then some ("Afternoon")
  else if eveningActive then some ("Evening")
  else if overnightActive then some ("Overnight")
  else none

structure DayWeather where
  tempHigh : Option JSNumber
  tempLow : Option JSNumber
  currentTime : Option String
  currentTemp : Option JSNumber
  currentFeltTemp : Option JSNumber
  currentCondition : Option String
  currentHumidity : Option String
  currentUvIndex : Option String
  currentWind : Option String
  morningChanceOfRain : Option String
  morningCondition : Option String
  morningTemperature : Option JSNumber
  afternoonChanceOfRain : Option String
  afternoonCondition : Option String
  afternoonTemperature : Option JSNumber
  eveningChanceOfRain : Option String
  eveningCondition : Option String
  eveningTemperature : Option JSNumber
  overnightChanceOfRain : Option String
  overnightCondition : Option String
  overnightTemperature : Option JSNumber
  currentDayStage : Option String
deriving DecidableEq, Repr

structure DayRoundWeather where
  date : Option String
  condition : Option String
  chanceOfRain : Option String
  tempLow : Option JSNumber
  tempHigh : Option JSNumber
deriving DecidableEq, Repr

/-- `todayDetailsCard.find(SELECTORS.temperature)` of `src/agent.ts`
(lines 362-363): all temperature leaves inside the today-details container,
in document order. -/
def detailTemps (doc : DomNode) : List NodePath :=
  queryCtx doc SELECTORS.temperature.q (query doc SELECTORS.todayDetails.q)

/-- `dayCard.find(SELECTORS.temperature)` of the outlook loop: all
temperature leaves inside one outlook row, in document order. -/
def rowTemps (doc : DomNode) (dayCard : NodePath) : List NodePath :=
  queryCtx doc SELECTORS.temperature.q [dayCard]

/-- The "today" half of `fetchWeather` in `src/agent.ts`, with its
diagnostics in emission order. -/
def fetchWeatherToday (doc : DomNode) : DayWeather × List String :=
  let todayDetailsCard := query doc SELECTORS.todayDetails.q
  let currentTemp := getTemp doc SELECTORS.currentTemp none
  let currentFeltTemp := getTemp doc SELECTORS.temperature (some todayDetailsCard)
  let currentCondition := getText doc SELECTORS.currentCondition none
  let timeRaw := getText doc SELECTORS.timestampLabel none
  let currentTime :=
    match timeRaw.1 with
    | none => none
    | some s =>
        let r := jsReplaceFirst s ("As of ") ("")
        if r = "" then none else some r
  let currentUvIndex := getText doc SELECTORS.uvIndex (some todayDetailsCard)
  let currentWind := getText doc SELECTORS.wind (some todayDetailsCard)
  let currentHumidity := (getPercentage doc SELECTORS.percentage (some todayDetailsCard)).1
  let highTemp := normalizeTemperature (firstTextOfSet doc (detailTemps doc))
  let lowTemp := normalizeTemperature (lastTextOfSet doc (detailTemps doc))
  let morning := getSegmentData doc 1
  let afternoon := getSegmentData doc 2
  let evening := getSegmentData doc 3
  let overnight := getSegmentData doc 4
  let currentDayStage :=
    computeDayStage morning.1.active afternoon.1.active evening.1.active overnight.1.active
  ({ tempHigh := highTemp, tempLow := lowTemp,
     currentTime := currentTime, currentTemp := currentTemp.1,
     currentFeltTemp := currentFeltTemp.1, currentCondition := currentCondition.1,
     currentHumidity := currentHumidity.1, currentUvIndex := currentUvIndex.1,
     currentWind := currentWind.1,
     morningChanceOfRain := morning.1.rain, morningCondition := morning.1.condition,
     morningTemperature := morning.1.temp,
     afternoonChanceOfRain := afternoon.1.rain, afternoonCondition := afternoon.1.condition,
     afternoonTemperature := afternoon.1.temp,
     eveningChanceOfRain := evening.1.rain, eveningCondition := evening.1.condition,
     eveningTemperature := evening.1.temp,
     overnightChanceOfRain := overnight.1.rain, overnightCondition := overnight.1.condition,
     overnightTemperature := overnight.1.temp,
     currentDayStage := currentDayStage },
   currentTemp.2 ++ currentFeltTemp.2 ++ currentCondition.2 ++ timeRaw.2 ++
   currentUvIndex.2 ++ currentWind.2 ++ currentHumidity.2 ++
   morning.2 ++ afternoon.2 ++ evening.2 ++ overnight.2)

/-- One iteration of the outlook loop of `src/agent.ts` (lines 424-436). -/
def extractNextDay (doc : DomNode) (dayCard : NodePath) : DayRoundWeather × List String :=
  let highTemp := normalizeTemperature (firstTextOfSet doc (rowTemps doc dayCard))
  let lowTemp := normalizeTemperature (lastTextOfSet doc (rowTemps doc dayCard))
  let d := getText doc SELECTORS.h3span (some [dayCard])
  let c := getText doc SELECTORS.condition (some [dayCard])
  let cr := (getPercentage doc SELECTORS.chanceOfRain (some [dayCard])).1
  ({ date := d.1, condition := c.1, chanceOfRain := cr.1,
     tempHigh := highTemp, tempLow := lowTemp },
   d.2 ++ c.2 ++ cr.2)

/-- The outlook half of `fetchWeather` in `src/agent.ts`:
`$(SELECTORS.followingDays).slice(1).each(...)` — the first row is skipped
and *all* remaining rows are kept. -/
def fetchWeatherNext (doc : DomNode) : List DayRoundWeather × List String :=
  let rows := (query doc SELECTORS.followingDays.q).drop 1
  let items := rows.map (extractNextDay doc)
  (items.map Prod.fst, (items.map Prod.snd).flatten)

/-- `fetchWeather` of `src/agent.ts`: the today forecast and the outlook
list, with all diagnostics in emission order. -/
def fetchWeather (doc : DomNode) :
    (DayWeather × List DayRoundWeather) × List String :=
  let today := fetchWeatherToday doc
  let next := fetchWeatherNext doc
  ((today.1, next.1), today.2 ++ next.2)

/-! ## The `src/weather.ts` variant of the outlook loop

`src/weather.ts`'s `getWeather` differs from `src/agent.ts` in two ways that
matter here: its `getText` returns the trimmed text as-is (possibly the empty
string), and its outlook loop is `$(SELECTORS.followingDays).slice(1, 3)` —
skip the first row and keep at most two. -/

/-- `getText` of `src/weather.ts` (no `|| null` on the trimmed text). -/
def getTextW (doc : DomNode) (sel : Sel) (ctx : Option (List NodePath)) :
    Option String × List String :=
  let element := queryOpt doc sel.q ctx
  if element.length > 0 then (some (jsTrim (textOfSet doc element)), [])
  else (none, [warnMsg sel])

/-- One iteration of the outlook loop of `src/weather.ts` (lines 207-219):
high/low are taken with `first()` / `last()` and parsed inline, guarded by
`length > 0`. -/
def extractNextDayW (doc : DomNode) (dayCard : NodePath) : DayRoundWeather × List String :=
  let rts := rowTemps doc dayCard
  let d := getTextW doc SELECTORS.h3span (some [dayCard])
  let c := getTextW doc SELECTORS.condition (some [dayCard])
  let cr := (getPercentage doc SELECTORS.chanceOfRain (some [dayCard])).1
  ({ date := d.1, condition := c.1, chanceOfRain := cr.1,
     tempHigh :=
       if rts.length > 0 then
         some (jsParseInt (jsReplaceFirst (firstTextOfSet doc rts) ("°") ("")))
       else none,
     tempLow :=
       if rts.length > 0 then
         some (jsParseInt (jsReplaceFirst (lastTextOfSet doc rts) ("°") ("")))
       else none },
   d.2 ++ c.2 ++ cr.2)

/-- The outlook loop of `src/weather.ts`:
`$(SELECTORS.followingDays).slice(1, 3).each(...)`. -/
def getWeatherNextW (doc : DomNode) : List DayRoundWeather × List String :=
  let rows := ((query doc SELECTORS.followingDays.q).drop 1).take 2
  let items := rows.map (extractNextDayW doc)
  (items.map Prod.fst, (items.map Prod.snd).flatten)

/-! ## `fetchLocations` of `src/agent.ts`

The search call's decoded response: `response.data.dal.getSunV3LocationSearchUrlConfig`
is an object with dynamically named keys, modelled as an association list in
JS `Object.keys` order.  Under each key sits `data.location`, which (when
present) holds the parallel arrays `placeId[]`, `city[]`, `adminDistrict[]`,
`country[]`.  Reading a property of `undefined` throws a `TypeError` in JS;
that is the `Except.error` case below.  Indexing one of the parallel arrays
past its end yields `undefined`, which a template literal renders as the
string `undefined`. -/

structure LocationsRaw where
  placeId : Option (List String)
  city : List String
  adminDistrict : List String
  country : List String

structure SearchEnvData where
  location : Option LocationsRaw

structure SearchEnvVal where
  data : SearchEnvData

structure Location where
  placeId : String
  name : String
deriving DecidableEq, Repr

/-- `arr[i]` rendered inside a JS template literal: the element, or the
string `undefined` past the end. -/
def jsIndexStr (l : List String) (i : Nat) : String :=
  l.getD i ("undefined")

/-- `fetchLocations` of `src/agent.ts` (lines 275-297), after the transport
layer: `dynamicKey = Object.keys(dalResponse)[0]` — the *first* key of the
envelope is read, whatever other keys are present.  An empty envelope makes
`dalResponse[undefined].data` throw (`TypeError`). -/
def fetchLocations (dalResponse : List (String × SearchEnvVal)) :
    Except String (List Location) :=
  match dalResponse with
  | [] => .error ("TypeError: cannot read properties of undefined")
  | (_, v) :: _ =>
      match v.data.location with
      | none => .ok []
      | some locationsRaw =>
          match locationsRaw.placeId with
          | none => .ok []
          | some pids =>
              .ok ((List.range pids.length).map (fun i =>
                { placeId := jsIndexStr pids i,
                  name := jsIndexStr locationsRaw.city i ++ ", " ++
                          jsIndexStr locationsRaw.adminDistrict i ++ ", " ++
                          jsIndexStr locationsRaw.country i }))

/-! ## Concrete documents used as test fixtures -/

/-- One `li` segment row of the today card. -/
def demoSegLi (active : Bool) (temp cond rain : String) : DomNode :=
  el ("li")
    (if active then [(("class"), ("Column--active--x"))] else [(("class"), ("Column--plain"))])
    [ el ("span") [(("data-testid"), ("TemperatureValue"))] [txt temp],
      el ("span") [(("class"), ("Column--iconPhrase--y"))] [txt cond],
      el ("div") [(("class"), ("Column--precip--z"))]
        [ el ("span") [] [txt ("icon")], txt rain ] ]

/-- A today card whose first *two* segments carry the active-period class. -/
def demoTwoActive : DomNode :=
  el ("body") []
    [ el ("div") [(("id"), ("WxuTodayWeatherCard-main-0"))]
        [ el ("ul") []
            [ demoSegLi true ("70°") ("Sunny") ("15%"),
              demoSegLi true ("75°") ("Cloudy") ("20%"),
              demoSegLi false ("68°") ("Clear") ("5%"),
              demoSegLi false ("60°") ("Clear") ("0%") ] ] ]

/-- One outlook row: date label, condition, rain chance, high and low. -/
def demoRow (d : String) : DomNode :=
  el ("li") []
    [ el ("h3") [] [el ("span") [] [txt d]],
      el ("span") [(("class"), ("Column--iconPhrase--a"))] [txt ("Rain")],
      el ("div") [(("class"), ("Column--precip--b"))] [txt ("30%")],
      el ("span") [(("data-testid"), ("TemperatureValue"))] [txt ("80°")],
      el ("span") [(("data-testid"), ("TemperatureValue"))] [txt ("60°")] ]

/-- A daily-forecast module presenting five candidate rows. -/
def demoFiveRows : DomNode :=
  el ("body") []
    [ el ("div") [(("data-testid"), ("DailyWeatherModule"))]
        [ el ("div") [(("data-testid"), ("WeatherTable"))]
            [ demoRow ("D0"), demoRow ("D1"), demoRow ("D2"),
              demoRow ("D3"), demoRow ("D4") ] ] ]

/-- A document with no recognisable structure at all. -/
def demoEmpty : DomNode :=
  el ("body") [] []

/-- A document with *no* today card but with a current-conditions
temperature leaf. -/
def demoNoCard : DomNode :=
  el ("body") []
    [ el ("div") [(("class"), ("CurrentConditions--tempValue--q"))] [txt ("72°")] ]

/-- A percentage leaf whose node mixes a non-text child with the trailing
plain text to extract. -/
def demoPercent : DomNode :=
  el ("body") []
    [ el ("div") [(("data-testid"), ("PercentageValue"))]
        [ el ("span") [] [txt ("icon")], txt ("20%") ] ]

/-- A percentage leaf all of whose text sits inside a child element, so its
own text (after strip-and-read) is empty. -/
def demoPercentEmpty : DomNode :=
  el ("body") []
    [ el ("div") [(("data-testid"), ("PercentageValue"))]
        [ el ("span") [] [txt ("7%")] ] ]

/-- A today-details container with three temperature leaves in document
order. -/
def demoDetails : DomNode :=
  el ("body") []
    [ el ("div") [(("data-testid"), ("TodaysDetailsModule"))]
        [ el ("span") [(("data-testid"), ("TemperatureValue"))] [txt ("80°")],
          el ("span") [(("data-testid"), ("TemperatureValue"))] [txt ("65°")],
          el ("span") [(("data-testid"), ("TemperatureValue"))] [txt ("50°")] ] ]

/-- A search envelope exposing *two* keys under
`getSunV3LocationSearchUrlConfig`, each with its own result set. -/
def demoEnvTwoKeys : List (String × SearchEnvVal) :=
  [ (("keyA"), ⟨⟨some ⟨some [("pid1")], [("CityA")], [("ST")], [("US")]⟩⟩⟩),
    (("keyB"), ⟨⟨some ⟨some [("pid2")], [("CityB")], [("ST")], [("US")]⟩⟩⟩) ]


/-! ## Spec-side reading of leaf text

`leafTextSpec` is the spec's named primitive "plain leaf text of a node,
excluding descendant subtrees": the concatenation of the node's *direct*
text children.  It is deliberately written independently of the
clone/remove/read pipeline of `getPercentage`, so that the two can be
proved to agree. -/

mutual
def leafTextSpec : DomNode → String
  | .textNode s => s
  | .elem _ _ cs => leafTextSpecF cs
def leafTextSpecF : DomForest → String
  | .nil => ""
  | .cons (.textNode s) cs => s ++ leafTextSpecF cs
  | .cons (.elem _ _ _) cs => leafTextSpecF cs
end

/-! ## Helper lemmas -/

theorem firstTextOfSet_eq_head (doc : DomNode) (l : List NodePath) (h : l ≠ []) :
    firstTextOfSet doc l = fullTextAt doc (l.head h) := by
  cases l with
  | nil => exact absurd rfl h
  | cons p ps => rfl

theorem lastTextOfSet_eq_getLast (doc : DomNode) (l : List NodePath) (h : l ≠ []) :
    lastTextOfSet doc l = fullTextAt doc (l.getLast h) := by
  rw [lastTextOfSet, List.getLast?_eq_getLast l h]

mutual
theorem cloneNode_eq_self : (n : DomNode) → cloneNode n = n
  | .textNode _ => rfl
  | .elem t a cs => by rw [cloneNode, cloneForest_eq_self cs]
theorem cloneForest_eq_self : (f : DomForest) → cloneForest f = f
  | .nil => rfl
  | .cons c cs => by rw [cloneForest, cloneNode_eq_self c, cloneForest_eq_self cs]
end

theorem fullTextF_filterTexts : (f : DomForest) → fullTextF f.filterTexts = leafTextSpecF f
  | .nil => rfl
  | .cons c cs => by
      cases c with
      | textNode s =>
          simp [DomForest.filterTexts, isTextNode, fullTextF, leafTextSpecF, fullText,
            fullTextF_filterTexts cs]
      | elem t a gs =>
          simp [DomForest.filterTexts, isTextNode, leafTextSpecF, fullTextF_filterTexts cs]

/-- Reading the text of a copy stripped of its child elements is exactly the
spec's "plain leaf text" of the original node. -/
theorem fullText_strip_clone (n : DomNode) :
    fullText (removeChildElements (cloneNode n)) = leafTextSpec n := by
  rw [cloneNode_eq_self]
  cases n with
  | textNode s => rfl
  | elem t a cs => rw [removeChildElements, fullText, leafTextSpec, fullTextF_filterTexts cs]

/-- If the ancestor part of a complex selector matches, then every one of
its components is realised by some ancestor path. -/
theorem matchesAnc_member (doc : DomNode) :
    ∀ (ps : List NodePath) (rs : List (Comb × SimpleSel)),
      matchesAnc doc rs ps = true →
      ∀ pr ∈ rs, ∃ a ∈ ps, matchesSimpleAt doc a pr.2 = true := by
  intro ps
  induction ps with
  | nil =>
      intro rs h pr hpr
      cases rs with
      | nil => cases hpr
      | cons r rs' => rw [matchesAnc] at h; cases h
  | cons a as ih =>
      intro rs h pr hpr
      cases rs with
      | nil => cases hpr
      | cons r rs' =>
          obtain ⟨c, s⟩ := r
          cases c with
          | child =>
              rw [matchesAnc] at h
              rw [Bool.and_eq_true] at h
              rcases List.mem_cons.mp hpr with hpr | hpr
              · subst hpr
                exact ⟨a, List.mem_cons_self a as, h.1⟩
              · obtain ⟨a', ha', hm⟩ := ih rs' h.2 pr hpr
                exact ⟨a', List.mem_cons_of_mem a ha', hm⟩
          | descendant =>
              rw [matchesAnc] at h
              rw [Bool.or_eq_true] at h
              rcases h with h | h
              · rw [Bool.and_eq_true] at h
                rcases List.mem_cons.mp hpr with hpr | hpr
                · subst hpr
                  exact ⟨a, List.mem_cons_self a as, h.1⟩
                · obtain ⟨a', ha', hm⟩ := ih rs' h.2 pr hpr
                  exact ⟨a', List.mem_cons_of_mem a ha', hm⟩
              · obtain ⟨a', ha', hm⟩ := ih ((.descendant, s) :: rs') h pr hpr
                exact ⟨a', List.mem_cons_of_mem a ha', hm⟩

/-- If no path of the document matches the today-card simple selector, the
per-segment query finds nothing, whatever the segment number. -/
theorem query_segment_empty (doc : DomNode)
    (H : ∀ p : NodePath, matchesSimpleAt doc p SELECTORS.todaySimple = false)
    (seg : Nat) :
    query doc (SELECTORS.segmentSel seg).q = [] := by
  rw [query, List.filter_eq_nil_iff]
  intro p _ hm
  rw [matchesComplexAt, Bool.and_eq_true] at hm
  obtain ⟨a, _, hma⟩ :=
    matchesAnc_member doc _ _ hm.2 (Comb.descendant, SELECTORS.todaySimple)
      (by simp [SELECTORS.segmentSel])
  rw [H a] at hma
  cases hma

/-- If no path of the document matches the daily-module simple selector,
the following-days query finds nothing. -/
theorem query_followingDays_empty (doc : DomNode)
    (H : ∀ p : NodePath, matchesSimpleAt doc p SELECTORS.dailyModuleSimple = false) :
    query doc SELECTORS.followingDays.q = [] := by
  rw [query, List.filter_eq_nil_iff]
  intro p _ hm
  rw [matchesComplexAt, Bool.and_eq_true] at hm
  obtain ⟨a, _, hma⟩ :=
    matchesAnc_member doc _ _ hm.2 (Comb.descendant, SELECTORS.dailyModuleSimple)
      (by simp [SELECTORS.followingDays])
  rw [H a] at hma
  cases hma

theorem queryCtx_nil (doc : DomNode) (sel : ComplexSel) : queryCtx doc sel [] = [] := by
  simp [queryCtx]

theorem getText_miss (doc : DomNode) (sel : Sel) (ctx : Option (List NodePath))
    (h : queryOpt doc sel.q ctx = []) :
    getText doc sel ctx = (none, [warnMsg sel]) := by
  rw [getText, h]
  rfl

theorem getPercentage_miss (doc : DomNode) (sel : Sel) (ctx : Option (List NodePath))
    (h : queryOpt doc sel.q ctx = []) :
    getPercentage doc sel ctx = ((none, [warnMsg sel]), doc) := by
  rw [getPercentage, h]
  rfl

theorem getTemp_miss (doc : DomNode) (sel : Sel) (ctx : Option (List NodePath))
    (h : queryOpt doc sel.q ctx = []) :
    getTemp doc sel ctx = (none, [warnMsg sel]) := by
  rw [getTemp, getText_miss doc sel ctx h]
  rfl

/-- A segment whose row query comes back empty: every field degrades to
`null` / `false` and exactly one diagnostic per missed field is emitted. -/
theorem getSegmentData_empty (doc : DomNode) (seg : Nat)
    (h : query doc (SELECTORS.segmentSel seg).q = []) :
    getSegmentData doc seg =
      ({ temp := none, condition := none, rain := none, active := false },
       [warnMsg SELECTORS.temperature, warnMsg SELECTORS.condition,
        warnMsg SELECTORS.chanceOfRain]) := by
  rw [getSegmentData, h]
  rw [getTemp_miss doc SELECTORS.temperature (some []) (queryCtx_nil doc SELECTORS.temperature.q)]
  rw [getText_miss doc SELECTORS.condition (some []) (queryCtx_nil doc SELECTORS.condition.q)]
  rw [getPercentage_miss doc SELECTORS.chanceOfRain (some [])
    (queryCtx_nil doc SELECTORS.chanceOfRain.q)]
  rfl

theorem jsWs_ne_degree {c : Char} (h : isJsWs c = true) : ('°' == c) = false := by
  cases hb : ('°' == c) with
  | false => rfl
  | true =>
      have : '°' = c := beq_iff_eq.mp hb
      subst this
      exact absurd h (by decide)

theorem ws_replaceFirst_self :
    ∀ cs : List Char, (∀ c ∈ cs, isJsWs c = true) →
      jsReplaceFirstChars [('°')] [] cs = cs := by
  intro cs
  induction cs with
  | nil => intro _; rfl
  | cons c cs ih =>
      intro h
      rw [jsReplaceFirstChars]
      have hpre : ([('°')].isPrefixOf (c :: cs)) = false := by
        rw [List.isPrefixOf_cons₂, jsWs_ne_degree (h c (List.mem_cons_self c cs)),
          Bool.false_and]
      rw [hpre]
      simp [ih (fun x hx => h x (List.mem_cons_of_mem c hx))]

theorem jsParseIntChars_ws (cs : List Char) (h : ∀ c ∈ cs, isJsWs c = true) :
    jsParseIntChars cs = JSNumber.nan := by
  have hd : cs.dropWhile isJsWs = [] := List.dropWhile_eq_nil_iff.mpr h
  rw [jsParseIntChars, hd]
  rfl

theorem normalizeTemperature_ws (s : String) (hne : s.data ≠ [])
    (hws : ∀ c ∈ s.data, isJsWs c = true) :
    normalizeTemperature s = some JSNumber.nan := by
  have hlen : s.length > 0 := by
    have : s.length = s.data.length := rfl
    rw [this]
    exact List.length_pos.mpr hne
  rw [normalizeTemperature, if_pos hlen]
  have hrep : jsReplaceFirst s ("°") ("") = s := by
    rw [jsReplaceFirst]
    show (⟨jsReplaceFirstChars [('°')] [] s.data⟩ : String) = s
    rw [ws_replaceFirst_self s.data hws]
  rw [hrep, jsParseInt, jsParseIntChars_ws s.data hws]

/-! ## Claims -/

/-- C1, counterexample: a search envelope exposing two keys under the
expected namespace does *not* make `fetchLocations` fail with a decode
error; it silently resolves the first key and returns its locations. -/
theorem C1_counterexample :
    demoEnvTwoKeys.length = 2 ∧
    fetchLocations demoEnvTwoKeys =
      Except.ok [{ placeId := ("pid1"), name := ("CityA, ST, US") }] :=
  ⟨rfl, rfl⟩

/-- C1, amended: `fetchLocations` reads `Object.keys(dalResponse)[0]` — the
first key in object key order — and ignores every further key: on any
non-empty envelope the result equals the result on the first entry alone and
is always a success, never a decode error; only the empty envelope fails
(a `TypeError`, not an `AmbiguousEnvelopeError`, which does not exist in the
code). -/
theorem C1_theorem :
    (∀ (k : String) (v : SearchEnvVal) (rest : List (String × SearchEnvVal)),
      fetchLocations ((k, v) :: rest) = fetchLocations [(k, v)] ∧
      ∃ locs, fetchLocations ((k, v) :: rest) = Except.ok locs) ∧
    fetchLocations [] =
      Except.error ("TypeError: cannot read properties of undefined") := by
  refine ⟨fun k v rest => ⟨rfl, ?_⟩, rfl⟩
  cases hloc : v.data.location with
  | none => exact ⟨[], by rw [fetchLocations, hloc]⟩
  | some raw =>
      cases hp : raw.placeId with
      | none => exact ⟨[], by simp [fetchLocations, hloc, hp]⟩
      | some pids =>
          exact ⟨(List.range pids.length).map (fun i =>
              { placeId := jsIndexStr pids i,
                name := jsIndexStr raw.city i ++ ", " ++
                        jsIndexStr raw.adminDistrict i ++ ", " ++
                        jsIndexStr raw.country i }),
            by simp [fetchLocations, hloc, hp]⟩

/-- C2, counterexample: the lone degree glyph does not normalize to `null`:
`parseInt('', 10)` is `NaN`, so `normalizeTemperature` returns `NaN` (a
number), not `null`. -/
theorem C2_counterexample :
    normalizeTemperature ("°") = some JSNumber.nan ∧
    normalizeTemperature ("°") ≠ none := by
  decide

/-- C2, amended: `normalizeTemperature` strips the first degree glyph and
parses with `parseInt(·, 10)`: `72°` gives 72 and the empty string gives
`null` (never 0), but the lone glyph, non-numeric residue, and every
non-empty whitespace-only string give `NaN` — not `null` — because
`parseInt` returns `NaN` rather than raising. -/
theorem C2_theorem :
    normalizeTemperature ("72°") = some (JSNumber.int 72) ∧
    normalizeTemperature ("") = none ∧
    normalizeTemperature ("°") = some JSNumber.nan ∧
    normalizeTemperature ("abc") = some JSNumber.nan ∧
    ∀ s : String, s.data ≠ [] → (∀ c ∈ s.data, isJsWs c = true) →
      normalizeTemperature s = some JSNumber.nan := by
  refine ⟨by decide, by decide, by decide, by decide, ?_⟩
  intro s h1 h2
  exact normalizeTemperature_ws s h1 h2

/-- C2, witness: the whitespace-only clause of `C2_theorem` at `" "`. -/
theorem C2_witness :
    (((" ") : String).data ≠ [] ∧ (∀ c ∈ ((" ") : String).data, isJsWs c = true)) ∧
    normalizeTemperature (" ") = some JSNumber.nan :=
  ⟨⟨by decide, by decide⟩, C2_theorem.2.2.2.2 (" ") (by decide) (by decide)⟩

/-- C3: the active segment is the first of morning, afternoon, evening,
overnight (in that fixed order) whose active flag is set: the extraction's
`currentDayStage` is exactly `computeDayStage` of the four segment flags,
`computeDayStage` is first-match search in the fixed order, flags
`[false, true, true, false]` resolve to the afternoon segment, and no active
flag resolves to `null`. -/
theorem C3_theorem :
    (∀ doc : DomNode, (fetchWeatherToday doc).1.currentDayStage =
      computeDayStage (getSegmentData doc 1).1.active (getSegmentData doc 2).1.active
        (getSegmentData doc 3).1.active (getSegmentData doc 4).1.active) ∧
    (∀ m a e o : Bool, computeDayStage m a e o =
      (([(m, ("Morning")), (a, ("Afternoon")), (e, ("Evening")),
         (o, ("Overnight"))].find? (fun p => p.1)).map (fun p => p.2))) ∧
    computeDayStage false true true false = some ("Afternoon") ∧
    computeDayStage false false false false = none := by
  refine ⟨fun doc => rfl, by decide, by decide, by decide⟩

/-- C4, counterexample: in a document whose markup flags the first *two*
segment rows with the active-period class, the extracted segments have
`isActive = true` simultaneously for morning and afternoon — more than one
active segment — while `activeSegment` names only the first. -/
theorem C4_counterexample :
    (getSegmentData demoTwoActive 1).1.active = true ∧
    (getSegmentData demoTwoActive 2).1.active = true ∧
    (fetchWeatherToday demoTwoActive).1.currentDayStage = some ("Morning") := by
  refine ⟨by decide, by decide, by decide⟩

/-- C4, amended: the extraction does not force at most one active segment —
each segment's flag is an independent structural match — but `activeSegment`
is single-valued: it names the *first* segment, in the fixed order morning,
afternoon, evening, overnight, whose flag is set (and is `null` when none
is). -/
theorem C4_theorem :
    ∀ doc : DomNode, (fetchWeatherToday doc).1.currentDayStage =
      (([(1, ("Morning")), (2, ("Afternoon")), (3, ("Evening")),
         (4, ("Overnight"))].find?
          (fun p => (getSegmentData doc p.1).1.active)).map (fun p => p.2)) := by
  intro doc
  have h : (fetchWeatherToday doc).1.currentDayStage =
      computeDayStage (getSegmentData doc 1).1.active (getSegmentData doc 2).1.active
        (getSegmentData doc 3).1.active (getSegmentData doc 4).1.active := rfl
  rw [h]
  cases h1 : (getSegmentData doc 1).1.active <;>
    cases h2 : (getSegmentData doc 2).1.active <;>
      cases h3 : (getSegmentData doc 3).1.active <;>
        cases h4 : (getSegmentData doc 4).1.active <;>
          simp [computeDayStage, List.find?, h1, h2, h3, h4]

/-- C5, counterexample: on a document presenting five candidate outlook
rows, the outlook loop of `src/agent.ts` (`slice(1)`, no horizon) emits
*four* `OutlookDay` entries — every row after the first — not the two the
claim's horizon of 2 demands. -/
theorem C5_counterexample :
    (query demoFiveRows SELECTORS.followingDays.q).length = 5 ∧
    (fetchWeatherNext demoFiveRows).1.length = 4 ∧
    (fetchWeatherNext demoFiveRows).1.map (fun d => d.date) =
      [some ("D1"), some ("D2"), some ("D3"), some ("D4")] := by
  refine ⟨by decide, by decide, by decide⟩

/-- C5, amended: both outlook loops skip row 0; the `src/weather.ts` variant
(`slice(1, 3)`) retains at most two rows — on five candidate rows exactly
rows 1 and 2 — while the `src/agent.ts` variant (`slice(1)`) applies no
horizon and retains every remaining row. -/
theorem C5_theorem :
    (getWeatherNextW demoFiveRows).1.map (fun d => d.date) =
      [some ("D1"), some ("D2")] ∧
    (∀ doc : DomNode, (getWeatherNextW doc).1.length =
      min 2 ((query doc SELECTORS.followingDays.q).length - 1)) ∧
    (∀ doc : DomNode, (fetchWeatherNext doc).1.length =
      (query doc SELECTORS.followingDays.q).length - 1) := by
  refine ⟨by decide, fun doc => ?_, fun doc => ?_⟩
  · simp [getWeatherNextW, List.length_take, List.length_drop]
  · simp [fetchWeatherNext, List.length_drop]

/-- C6: on any non-empty match set, the percentage extraction computes
exactly "clone the node, drop its child subtrees, read the remaining
trimmed text" — i.e. the trimmed plain leaf text (`leafTextSpec`) of each
matched node — and hands the document back unmodified (the `.remove()` acts
only on the detached clones). -/
theorem C6_theorem (doc : DomNode) (sel : Sel) (ctx : Option (List NodePath))
    (h : queryOpt doc sel.q ctx ≠ []) :
    (getPercentage doc sel ctx).1.1 =
      some (jsTrim (String.join ((queryOpt doc sel.q ctx).map
        (fun p => leafTextSpec ((getNode p doc).getD (txt (""))))))) ∧
    (getPercentage doc sel ctx).2 = doc := by
  have hc : ¬((queryOpt doc sel.q ctx).length = 0) :=
    fun hh => h (List.length_eq_zero.mp hh)
  rw [getPercentage, if_neg hc]
  refine ⟨?_, rfl⟩
  have hmap :
      (((queryOpt doc sel.q ctx).map
          (fun p => cloneNode ((getNode p doc).getD (txt (""))))).map
        removeChildElements).map fullText =
      (queryOpt doc sel.q ctx).map
        (fun p => leafTextSpec ((getNode p doc).getD (txt ("")))) := by
    rw [List.map_map, List.map_map]
    simp [Function.comp_def, fullText_strip_clone]
  simp only [hmap]

/-- C6, witness: `C6_theorem` on a percentage node holding an icon child
followed by the text `20%` — the strip-and-read yields `20%` (though the
node's full text would not) and the document is returned unchanged. -/
theorem C6_witness :
    (queryOpt demoPercent SELECTORS.percentage.q none ≠ []) ∧
    (getPercentage demoPercent SELECTORS.percentage none).1.1 = some ("20%") ∧
    (getPercentage demoPercent SELECTORS.percentage none).2 = demoPercent ∧
    textOfSet demoPercent (queryOpt demoPercent SELECTORS.percentage.q none) ≠ ("20%") :=
  have t := C6_theorem demoPercent SELECTORS.percentage none (by decide)
  ⟨by decide, t.1.trans (by decide), t.2, by decide⟩

/-- C7, counterexample: a structural lookup matching zero nodes does *not*
always emit a diagnostic: with the following-days container absent, the
collection lookup comes back empty and the outlook loop runs zero times,
emitting an empty diagnostic list — not the one-diagnostic-per-miss the
claim requires of every lookup. -/
theorem C7_counterexample :
    query demoEmpty SELECTORS.followingDays.q = [] ∧
    fetchWeatherNext demoEmpty = ([], []) := by
  refine ⟨by decide, by decide⟩

/-- C7, amended: the *leaf* lookups `getText` and `getPercentage` do return
`null` plus exactly one diagnostic naming the missed selector on zero
matches, and never raise; but container and collection lookups are silent —
an empty collection yields an empty result list with *no* diagnostic. -/
theorem C7_theorem (doc : DomNode) (sel : Sel) (ctx : Option (List NodePath))
    (h1 : queryOpt doc sel.q ctx = [])
    (h2 : query doc SELECTORS.followingDays.q = []) :
    getText doc sel ctx = (none, [warnMsg sel]) ∧
    (getPercentage doc sel ctx).1 = (none, [warnMsg sel]) ∧
    fetchWeatherNext doc = ([], []) := by
  refine ⟨getText_miss doc sel ctx h1, ?_, ?_⟩
  · rw [getPercentage_miss doc sel ctx h1]
  · simp [fetchWeatherNext, h2]

/-- C7, witness: `C7_theorem` on the empty document with the percentage
selector and no context. -/
theorem C7_witness :
    (queryOpt demoEmpty SELECTORS.percentage.q none = [] ∧
     query demoEmpty SELECTORS.followingDays.q = []) ∧
    (getText demoEmpty SELECTORS.percentage none =
      (none, [warnMsg SELECTORS.percentage]) ∧
     (getPercentage demoEmpty SELECTORS.percentage none).1 =
      (none, [warnMsg SELECTORS.percentage]) ∧
     fetchWeatherNext demoEmpty = ([], [])) :=
  ⟨⟨by decide, by decide⟩,
   C7_theorem demoEmpty SELECTORS.percentage none (by decide) (by decide)⟩

/-- C8, counterexample: with the today card absent, extraction does *not*
return every field `null`: fields scoped outside that container (here the
current-conditions temperature) are still extracted. -/
theorem C8_counterexample :
    query demoNoCard SELECTORS.today.q = [] ∧
    (fetchWeatherToday demoNoCard).1.currentTemp = some (JSNumber.int 72) ∧
    (fetchWeatherToday demoNoCard).1.currentTemp ≠ none := by
  refine ⟨by decide, by decide, by decide⟩

/-- C8, amended: extraction never throws, and when no node of the document
matches the today-card selector every *segment-derived* field is `null`,
every segment flag is false (so `activeSegment = null`), and each of the
twelve missed segment fields yields exactly one diagnostic naming its
selector (three per segment); fields scoped outside the container are
unaffected.  When no node matches the daily-module selector the outlook
degrades to the empty list (with no diagnostic). -/
theorem C8_theorem (doc : DomNode)
    (H1 : ∀ p : NodePath, matchesSimpleAt doc p SELECTORS.todaySimple = false)
    (H2 : ∀ p : NodePath, matchesSimpleAt doc p SELECTORS.dailyModuleSimple = false) :
    (∀ seg : Nat, getSegmentData doc seg =
      ({ temp := none, condition := none, rain := none, active := false },
       [warnMsg SELECTORS.temperature, warnMsg SELECTORS.condition,
        warnMsg SELECTORS.chanceOfRain])) ∧
    ((fetchWeatherToday doc).1.morningTemperature,
     (fetchWeatherToday doc).1.morningCondition,
     (fetchWeatherToday doc).1.morningChanceOfRain,
     (fetchWeatherToday doc).1.afternoonTemperature,
     (fetchWeatherToday doc).1.afternoonCondition,
     (fetchWeatherToday doc).1.afternoonChanceOfRain,
     (fetchWeatherToday doc).1.eveningTemperature,
     (fetchWeatherToday doc).1.eveningCondition,
     (fetchWeatherToday doc).1.eveningChanceOfRain,
     (fetchWeatherToday doc).1.overnightTemperature,
     (fetchWeatherToday doc).1.overnightCondition,
     (fetchWeatherToday doc).1.overnightChanceOfRain) =
      (none, none, none, none, none, none, none, none, none, none, none, none) ∧
    (fetchWeatherToday doc).1.currentDayStage = none ∧
    fetchWeatherNext doc = ([], []) := by
  have hseg : ∀ seg : Nat, getSegmentData doc seg =
      ({ temp := none, condition := none, rain := none, active := false },
       [warnMsg SELECTORS.temperature, warnMsg SELECTORS.condition,
        warnMsg SELECTORS.chanceOfRain]) :=
    fun seg => getSegmentData_empty doc seg (query_segment_empty doc H1 seg)
  refine ⟨hseg, ?_, ?_, ?_⟩
  · have key :
        ((fetchWeatherToday doc).1.morningTemperature,
         (fetchWeatherToday doc).1.morningCondition,
         (fetchWeatherToday doc).1.morningChanceOfRain,
         (fetchWeatherToday doc).1.afternoonTemperature,
         (fetchWeatherToday doc).1.afternoonCondition,
         (fetchWeatherToday doc).1.afternoonChanceOfRain,
         (fetchWeatherToday doc).1.eveningTemperature,
         (fetchWeatherToday doc).1.eveningCondition,
         (fetchWeatherToday doc).1.eveningChanceOfRain,
         (fetchWeatherToday doc).1.overnightTemperature,
         (fetchWeatherToday doc).1.overnightCondition,
         (fetchWeatherToday doc).1.overnightChanceOfRain) =
        ((getSegmentData doc 1).1.temp,
         (getSegmentData doc 1).1.condition,
         (getSegmentData doc 1).1.rain,
         (getSegmentData doc 2).1.temp,
         (getSegmentData doc 2).1.condition,
         (getSegmentData doc 2).1.rain,
         (getSegmentData doc 3).1.temp,
         (getSegmentData doc 3).1.condition,
         (getSegmentData doc 3).1.rain,
         (getSegmentData doc 4).1.temp,
         (getSegmentData doc 4).1.condition,
         (getSegmentData doc 4).1.rain) := rfl
    rw [key, hseg 1, hseg 2, hseg 3, hseg 4]
  · have key : (fetchWeatherToday doc).1.currentDayStage =
        computeDayStage (getSegmentData doc 1).1.active (getSegmentData doc 2).1.active
          (getSegmentData doc 3).1.active (getSegmentData doc 4).1.active := rfl
    rw [key, hseg 1, hseg 2, hseg 3, hseg 4]
    rfl
  · simp [fetchWeatherNext, query_followingDays_empty doc H2]

/-- C8, witness: `C8_theorem` on the empty document (both container
hypotheses hold there). -/
theorem C8_witness :
    getSegmentData demoEmpty 1 =
      ({ temp := none, condition := none, rain := none, active := false },
       [warnMsg SELECTORS.temperature, warnMsg SELECTORS.condition,
        warnMsg SELECTORS.chanceOfRain]) ∧
    (fetchWeatherToday demoEmpty).1.morningTemperature = none ∧
    (fetchWeatherToday demoEmpty).1.currentDayStage = none ∧
    fetchWeatherNext demoEmpty = ([], []) := by
  have t := C8_theorem demoEmpty
    (fun p => match p with
      | [] => by decide
      | _ :: _ => rfl)
    (fun p => match p with
      | [] => by decide
      | _ :: _ => rfl)
  exact ⟨t.1 1, congrArg Prod.fst t.2.1, t.2.2.1, t.2.2.2⟩

/-- C9: within the today-details container, the temperature leaves are
queried in document order and the *first* yields the high while the *last*
yields the low; the same first/last convention, scoped to each outlook row
via `rowTemps`, produces every outlook row's high and low. -/
theorem C9_theorem (doc : DomNode) :
    (∀ h : detailTemps doc ≠ [],
      (fetchWeatherToday doc).1.tempHigh =
        normalizeTemperature (fullTextAt doc ((detailTemps doc).head h)) ∧
      (fetchWeatherToday doc).1.tempLow =
        normalizeTemperature (fullTextAt doc ((detailTemps doc).getLast h))) ∧
    ∀ (dayCard : NodePath) (h2 : rowTemps doc dayCard ≠ []),
      (extractNextDay doc dayCard).1.tempHigh =
        normalizeTemperature (fullTextAt doc ((rowTemps doc dayCard).head h2)) ∧
      (extractNextDay doc dayCard).1.tempLow =
        normalizeTemperature (fullTextAt doc ((rowTemps doc dayCard).getLast h2)) := by
  refine ⟨fun h => ⟨?_, ?_⟩, fun dayCard h2 => ⟨?_, ?_⟩⟩
  · have key : (fetchWeatherToday doc).1.tempHigh =
        normalizeTemperature (firstTextOfSet doc (detailTemps doc)) := rfl
    rw [key, firstTextOfSet_eq_head doc (detailTemps doc) h]
  · have key : (fetchWeatherToday doc).1.tempLow =
        normalizeTemperature (lastTextOfSet doc (detailTemps doc)) := rfl
    rw [key, lastTextOfSet_eq_getLast doc (detailTemps doc) h]
  · have key : (extractNextDay doc dayCard).1.tempHigh =
        normalizeTemperature (firstTextOfSet doc (rowTemps doc dayCard)) := rfl
    rw [key, firstTextOfSet_eq_head doc (rowTemps doc dayCard) h2]
  · have key : (extractNextDay doc dayCard).1.tempLow =
        normalizeTemperature (lastTextOfSet doc (rowTemps doc dayCard)) := rfl
    rw [key, lastTextOfSet_eq_getLast doc (rowTemps doc dayCard) h2]

/-- C9, witness: `C9_theorem` on a details container with three temperature
leaves (80, 65, 50): the high is the first (80), the low the last (50); and
on an outlook row of `demoFiveRows` the row-scoped first/last give 80/60. -/
theorem C9_witness :
    (detailTemps demoDetails ≠ []) ∧
    (fetchWeatherToday demoDetails).1.tempHigh = some (JSNumber.int 80) ∧
    (fetchWeatherToday demoDetails).1.tempLow = some (JSNumber.int 50) ∧
    (rowTemps demoFiveRows [0, 0, 1] ≠ []) ∧
    (extractNextDay demoFiveRows [0, 0, 1]).1.tempHigh = some (JSNumber.int 80) ∧
    (extractNextDay demoFiveRows [0, 0, 1]).1.tempLow = some (JSNumber.int 60) := by
  have t := (C9_theorem demoDetails).1 (by decide)
  have t2 := (C9_theorem demoFiveRows).2 [0, 0, 1] (by decide)
  exact ⟨by decide, t.1.trans (by decide), t.2.trans (by decide),
    by decide, t2.1.trans (by decide), t2.2.trans (by decide)⟩

/-- C10: the percentage extraction distinguishes "matched but textually
empty" from "missed": whenever the selector matches at least one node it
returns `some` string — the empty string when the stripped own text is
empty — and it returns `null` exactly when the selector matches zero
nodes. -/
theorem C10_theorem (doc : DomNode) (sel : Sel) (ctx : Option (List NodePath)) :
    ((queryOpt doc sel.q ctx ≠ []) →
      ∃ s : String, (getPercentage doc sel ctx).1.1 = some s) ∧
    ((getPercentage doc sel ctx).1.1 = none ↔ queryOpt doc sel.q ctx = []) := by
  constructor
  · intro h
    have hc : ¬((queryOpt doc sel.q ctx).length = 0) :=
      fun hh => h (List.length_eq_zero.mp hh)
    rw [getPercentage, if_neg hc]
    exact ⟨_, rfl⟩
  · constructor
    · intro hnone
      by_contra h
      have hc : ¬((queryOpt doc sel.q ctx).length = 0) :=
        fun hh => h (List.length_eq_zero.mp hh)
      rw [getPercentage, if_neg hc] at hnone
      cases hnone
    · intro h
      have hc : (queryOpt doc sel.q ctx).length = 0 := by rw [h]; rfl
      rw [getPercentage, if_pos hc]

/-- C10, witness: on a percentage node whose only content is a child
element, the extraction returns the empty string, not `null`; on the empty
document it returns `null`. -/
theorem C10_witness :
    (queryOpt demoPercentEmpty SELECTORS.percentage.q none ≠ []) ∧
    (getPercentage demoPercentEmpty SELECTORS.percentage none).1.1 = some ("") ∧
    (getPercentage demoEmpty SELECTORS.percentage none).1.1 = none := by
  have t := (C10_theorem demoPercentEmpty SELECTORS.percentage none).1 (by decide)
  have t2 := (C10_theorem demoEmpty SELECTORS.percentage none).2.mpr (by decide)
  exact ⟨by decide, by decide, t2⟩
